import Mathlib

/-!
Shallow embedding of `create_torchscript_neuropod` from
`source/neuropods/python/backends/torchscript/packager.py`.

The Python function is straight-line I/O code: it creates directories,
copies custom-op binaries, delegates a config write, delegates model
serialization, and optionally persists test data and runs a smoke test.
We embed it as a pure function from its arguments (plus an abstraction
`pathExists` of the one filesystem condition the function branches on,
namely whether `os.mkdir neuropod_path` fails because the path exists)
to the ordered list of filesystem operations and delegated calls it
performs, paired with the error it raises, if any.

Paths are modelled as lists of components; `os.path.join` is list
append and `os.path.basename` takes the last component.  Opaque values
that the function only passes through (the ScriptModule, the tensor
specs, the test data) are modelled by simple carrier types: the claims
only require that they are forwarded unchanged.  Failures of the
delegated collaborators (`config_utils`, `eval_utils`, `torch.jit`) are
external services out of scope of the spec; the only control flow inside
the function itself is the `try/except OSError` around `os.mkdir`.
-/

namespace Neuropod

/-- A filesystem path, as its list of components (`os.path.join` appends). -/
abbrev Path := List String

/-- Model of `os.path.basename`: the last component of a path. -/
def basename (p : Path) : String := p.getLastD ""

/-- The arguments of `create_torchscript_neuropod`, with the Python
default values.  `module` (the ScriptModule) and the test data are
opaque to the packager and are carried as plain values; the tensor
specs are opaque lists of entries. -/
structure Args where
  neuropod_path : Path
  model_name : String
  module : Nat
  input_spec : List String
  output_spec : List String
  custom_ops : List Path := []
  test_input_data : Option Nat := none
  test_expected_out : Option Nat := none
  persist_test_data : Bool := true
  input_tensor_device : Option (List (String × String)) := none
  default_input_tensor_device : String := "GPU"
deriving DecidableEq, Repr

/-- The record of keyword arguments the function hands to
`config_utils.write_neuropod_config`. -/
structure NeuropodConfig where
  neuropod_path : Path
  model_name : String
  platform : String
  input_spec : List String
  output_spec : List String
  custom_ops : List String
  input_tensor_device : Option (List (String × String))
  default_input_tensor_device : String
deriving DecidableEq, Repr

/-- The errors the function itself can raise: the `ValueError` from the
`except OSError` branch (the underlying `OSError` is swallowed and
never propagates). -/
inductive PyError where
  | osError
  | valueError (msg : String)
deriving DecidableEq, Repr

/-- One filesystem operation or delegated call performed by the
function, in the order of the trace. -/
inductive Event where
  | mkdir (path : Path)
  | makedirs (path : Path)
  | copy (src : Path) (dstDir : Path)
  | writeNeuropodConfig (cfg : NeuropodConfig)
  | torchJitSave (module : Nat) (path : Path)
  | saveTestData (neuropod_path : Path) (input : Nat) (expected : Option Nat)
  | loadAndTestNeuropod (neuropod_path : Path) (input : Nat) (expected : Option Nat)
deriving DecidableEq, Repr

/-- The config record built at the `config_utils.write_neuropod_config`
call site (packager.py lines 103-112): the caller's fields are passed
through unchanged, `platform` is the literal `"torchscript"`, and
`custom_ops` is the list of basenames of the custom op paths. -/
def packagedConfig (a : Args) : NeuropodConfig :=
  { neuropod_path := a.neuropod_path
    model_name := a.model_name
    platform := "torchscript"
    input_spec := a.input_spec
    output_spec := a.output_spec
    custom_ops := a.custom_ops.map basename
    input_tensor_device := a.input_tensor_device
    default_input_tensor_device := a.default_input_tensor_device }

/-- The trailing `if test_input_data is not None:` block (packager.py
lines 122-131): optionally persist the test data, then load and test
the packaged neuropod. -/
def testPhase (a : Args) : List Event :=
  match a.test_input_data with
  | none => []
  | some t =>
      (if a.persist_test_data then
        [Event.saveTestData a.neuropod_path t a.test_expected_out]
      else []) ++
      [Event.loadAndTestNeuropod a.neuropod_path t a.test_expected_out]

/-- Embedding of `create_torchscript_neuropod` (packager.py lines
90-131).  `pathExists` abstracts the filesystem state the function
branches on: whether `os.mkdir neuropod_path` raises `OSError`.  The
result is the ordered trace of operations performed and the error
raised, if any: when `os.mkdir` fails the function raises `ValueError`
before performing any operation; otherwise it performs, in source
order, `os.mkdir`, `os.makedirs` of the ops directory, one
`shutil.copy` per custom op, the `write_neuropod_config` call,
`os.makedirs` of the data directory, `torch.jit.save`, and the optional
test phase. -/
def create_torchscript_neuropod (pathExists : Path → Bool) (a : Args) :
    List Event × Option PyError :=
  if pathExists a.neuropod_path then
    ([], some (PyError.valueError
      ("The specified neuropod path (" ++ String.intercalate "/" a.neuropod_path ++
        ") already exists! Aborting...")))
  else
    ([Event.mkdir a.neuropod_path,
      Event.makedirs (a.neuropod_path ++ ["0", "ops"])] ++
      a.custom_ops.map (fun op => Event.copy op (a.neuropod_path ++ ["0", "ops"])) ++
      [Event.writeNeuropodConfig (packagedConfig a),
       Event.makedirs (a.neuropod_path ++ ["0", "data"]),
       Event.torchJitSave a.module (a.neuropod_path ++ ["0", "data", "model.pt"])] ++
      testPhase a,
     none)

/-- Classifier: directory-creation events (`os.mkdir` / `os.makedirs`). -/
def Event.isDirCreation : Event → Bool
  | .mkdir _ => true
  | .makedirs _ => true
  | _ => false

/-- Classifier: the initial `os.mkdir` of the package directory. -/
def Event.isMkdir : Event → Bool
  | .mkdir _ => true
  | _ => false

/-- Classifier: `shutil.copy` events. -/
def Event.isCopy : Event → Bool
  | .copy _ _ => true
  | _ => false

/-- Classifier: the `config_utils.write_neuropod_config` call. -/
def Event.isConfigWrite : Event → Bool
  | .writeNeuropodConfig _ => true
  | _ => false

/-- Classifier: the `torch.jit.save` model-serialization call. -/
def Event.isSerialize : Event → Bool
  | .torchJitSave _ _ => true
  | _ => false

/-- Classifier: the `load_and_test_neuropod` smoke-test call. -/
def Event.isLoadAndTest : Event → Bool
  | .loadAndTestNeuropod _ _ _ => true
  | _ => false

/-- Classifier: events of the optional test phase (`save_test_data` or
`load_and_test_neuropod`). -/
def Event.isTestEvent : Event → Bool
  | .saveTestData _ _ _ => true
  | .loadAndTestNeuropod _ _ _ => true
  | _ => false

/-- In trace `tr`, every event satisfying `p` occurs strictly before
every event satisfying `q`. -/
def eventsOrdered (p q : Event → Bool) (tr : List Event) : Prop :=
  ∀ i j : Fin tr.length, p (tr.get i) = true → q (tr.get j) = true → (i : Nat) < (j : Nat)

instance (p q : Event → Bool) (tr : List Event) : Decidable (eventsOrdered p q tr) := by
  unfold eventsOrdered; infer_instance

/-- The step order asserted by the spec sentence behind claim C1: all
directory creations first, then the model serialization, then the
config write, then the custom-op copies, then the smoke test. -/
def ClaimedStepOrder (tr : List Event) : Prop :=
  eventsOrdered Event.isDirCreation Event.isSerialize tr ∧
  eventsOrdered Event.isSerialize Event.isConfigWrite tr ∧
  eventsOrdered Event.isConfigWrite Event.isCopy tr ∧
  eventsOrdered Event.isCopy Event.isTestEvent tr

instance (tr : List Event) : Decidable (ClaimedStepOrder tr) := by
  unfold ClaimedStepOrder; infer_instance

/-- The step order the function actually follows on a successful run:
the package `mkdir` comes before everything else, every custom-op copy
precedes the config write, the config write precedes the model
serialization, every directory creation precedes the serialization,
and the serialization precedes the optional test phase. -/
def ActualStepOrder (tr : List Event) : Prop :=
  eventsOrdered Event.isMkdir (fun e => !Event.isMkdir e) tr ∧
  eventsOrdered Event.isCopy Event.isConfigWrite tr ∧
  eventsOrdered Event.isConfigWrite Event.isSerialize tr ∧
  eventsOrdered Event.isDirCreation Event.isSerialize tr ∧
  eventsOrdered Event.isSerialize Event.isTestEvent tr

instance (tr : List Event) : Decidable (ActualStepOrder tr) := by
  unfold ActualStepOrder; infer_instance

/-- The filesystem locations an event creates or writes (reads, such as
the source of a `shutil.copy` or the loading done by the smoke test,
are not writes).  A delegated call is credited with the package path it
is handed: it operates within that path. -/
def Event.touchedPaths : Event → List Path
  | .mkdir p => [p]
  | .makedirs p => [p]
  | .copy src dstDir => [dstDir ++ [basename src]]
  | .writeNeuropodConfig cfg => [cfg.neuropod_path]
  | .torchJitSave _ p => [p]
  | .saveTestData p _ _ => [p]
  | .loadAndTestNeuropod p _ _ => [p]

/-- A concrete argument record used for witnesses and counterexamples:
one custom op, test data and expected output supplied. -/
def exArgs : Args :=
  { neuropod_path := ["out"]
    model_name := "m"
    module := 7
    input_spec := ["x"]
    output_spec := ["y"]
    custom_ops := [["dir", "libop.so"]]
    test_input_data := some 1
    test_expected_out := some 2 }

/-- A concrete argument record exercising the Python default values:
no custom ops, no test data. -/
def exArgsDefaults : Args :=
  { neuropod_path := ["pkg"]
    model_name := "m2"
    module := 3
    input_spec := ["i"]
    output_spec := ["o"] }

/-- A filesystem on which the target path does not yet exist. -/
def exFsFree : Path → Bool := fun _ => false

/-- A filesystem on which every path already exists. -/
def exFsTaken : Path → Bool := fun _ => true

/-! Helper lemmas about `eventsOrdered` and the segments of the trace. -/

theorem eventsOrdered_append (p q : Event → Bool) (xs ys : List Event)
    (hp : ∀ e ∈ ys, p e = false) (hq : ∀ e ∈ xs, q e = false) :
    eventsOrdered p q (xs ++ ys) := by
  intro i j hpi hqj
  have hi : (i : Nat) < xs.length := by
    by_contra hcon
    push_neg at hcon
    have hbound : (i : Nat) - xs.length < ys.length := by
      have h1 := i.isLt
      have h2 : (xs ++ ys).length = xs.length + ys.length := List.length_append xs ys
      omega
    have hget : (xs ++ ys).get i = ys[(i : Nat) - xs.length] := by
      rw [List.get_eq_getElem]
      exact List.getElem_append_right hcon
    rw [hget, hp _ (List.getElem_mem hbound)] at hpi
    exact Bool.false_ne_true hpi
  have hj : xs.length ≤ (j : Nat) := by
    by_contra hcon
    push_neg at hcon
    have hget : (xs ++ ys).get j = xs[(j : Nat)] := by
      rw [List.get_eq_getElem]
      exact List.getElem_append_left hcon
    rw [hget, hq _ (List.getElem_mem hcon)] at hqj
    exact Bool.false_ne_true hqj
  omega

theorem testPhase_events_are_test (a : Args) :
    ∀ e ∈ testPhase a, Event.isTestEvent e = true := by
  intro e he
  unfold testPhase at he
  rcases hd : a.test_input_data with _ | t <;> rw [hd] at he
  · simp at he
  · rcases List.mem_append.mp he with h1 | h1
    · rcases hp : a.persist_test_data <;> rw [hp] at h1 <;> simp at h1
      rw [h1]; rfl
    · simp at h1
      rw [h1]; rfl

theorem eventsOrdered_of_split (p q : Event → Bool) (tr xs ys : List Event)
    (htr : tr = xs ++ ys)
    (hp : ∀ e ∈ ys, p e = false) (hq : ∀ e ∈ xs, q e = false) :
    eventsOrdered p q tr := htr ▸ eventsOrdered_append p q xs ys hp hq

theorem isTestEvent_excludes (e : Event) (h : Event.isTestEvent e = true) :
    Event.isCopy e = false ∧ Event.isConfigWrite e = false ∧
    Event.isSerialize e = false ∧ Event.isDirCreation e = false ∧
    Event.isMkdir e = false := by
  cases e <;> simp_all [Event.isTestEvent, Event.isCopy, Event.isConfigWrite,
    Event.isSerialize, Event.isDirCreation, Event.isMkdir]

theorem mem_copyEvents (l : List Path) (d : Path) (e : Event)
    (he : e ∈ l.map (fun op => Event.copy op d)) : ∃ s, e = Event.copy s d := by
  rcases List.mem_map.mp he with ⟨op, _, rfl⟩
  exact ⟨op, rfl⟩

theorem forall_false_append {p : Event → Bool} {xs ys : List Event}
    (hx : ∀ e ∈ xs, p e = false) (hy : ∀ e ∈ ys, p e = false) :
    ∀ e ∈ xs ++ ys, p e = false := by
  intro e he
  rcases List.mem_append.mp he with h | h
  · exact hx e h
  · exact hy e h

theorem forall_false_copies {p : Event → Bool} (l : List Path) (d : Path)
    (hp : ∀ s, p (Event.copy s d) = false) :
    ∀ e ∈ l.map (fun op => Event.copy op d), p e = false := by
  intro e he
  rcases mem_copyEvents l d e he with ⟨s, rfl⟩
  exact hp s

theorem forall_false_testPhase {p : Event → Bool} (a : Args)
    (hp : ∀ e, Event.isTestEvent e = true → p e = false) :
    ∀ e ∈ testPhase a, p e = false :=
  fun e he => hp e (testPhase_events_are_test a e he)

/-- C1, counterexample: on a concrete successful call (fresh path, one
custom op, test data supplied) the trace does not follow the order the
claim asserts (directories, then serialization, then config write, then
copies, then test): the code writes the config before serializing and
copies the custom ops before writing the config. -/
theorem claim_C1_counterexample :
    (create_torchscript_neuropod exFsFree exArgs).2 = none ∧
    ¬ ClaimedStepOrder (create_torchscript_neuropod exFsFree exArgs).1 := by
  constructor
  · decide
  · decide

/-- C1, amended: for every successful call, the trace is exactly:
create the package directory, create the ops directory, copy each
custom op in order, write the config, create the data directory,
serialize the model, then (optionally) persist test data and run the
smoke test; in particular the package `mkdir` precedes everything,
copies precede the config write, the config write precedes the
serialization, all directory creations precede the serialization, and
the serialization precedes the test phase. -/
theorem create_torchscript_neuropod_step_order (fs : Path → Bool) (a : Args)
    (h : (create_torchscript_neuropod fs a).2 = none) :
    (create_torchscript_neuropod fs a).1 =
      [Event.mkdir a.neuropod_path,
       Event.makedirs (a.neuropod_path ++ ["0", "ops"])] ++
        a.custom_ops.map (fun op => Event.copy op (a.neuropod_path ++ ["0", "ops"])) ++
        [Event.writeNeuropodConfig (packagedConfig a),
         Event.makedirs (a.neuropod_path ++ ["0", "data"]),
         Event.torchJitSave a.module (a.neuropod_path ++ ["0", "data", "model.pt"])] ++
        testPhase a ∧
    ActualStepOrder (create_torchscript_neuropod fs a).1 := by
  rcases hfs : fs a.neuropod_path with _ | _
  case true => simp [create_torchscript_neuropod, hfs] at h
  have htr : (create_torchscript_neuropod fs a).1 =
      [Event.mkdir a.neuropod_path,
       Event.makedirs (a.neuropod_path ++ ["0", "ops"])] ++
        a.custom_ops.map (fun op => Event.copy op (a.neuropod_path ++ ["0", "ops"])) ++
        [Event.writeNeuropodConfig (packagedConfig a),
         Event.makedirs (a.neuropod_path ++ ["0", "data"]),
         Event.torchJitSave a.module (a.neuropod_path ++ ["0", "data", "model.pt"])] ++
        testPhase a := by
    simp [create_torchscript_neuropod, hfs]
  refine ⟨htr, ?_, ?_, ?_, ?_, ?_⟩
  · -- the package mkdir comes first
    refine eventsOrdered_of_split _ _ _ [Event.mkdir a.neuropod_path]
      ([Event.makedirs (a.neuropod_path ++ ["0", "ops"])] ++
        a.custom_ops.map (fun op => Event.copy op (a.neuropod_path ++ ["0", "ops"])) ++
        ([Event.writeNeuropodConfig (packagedConfig a),
          Event.makedirs (a.neuropod_path ++ ["0", "data"]),
          Event.torchJitSave a.module (a.neuropod_path ++ ["0", "data", "model.pt"])] ++
          testPhase a)) (by rw [htr]; simp) ?_ ?_
    · exact forall_false_append
        (forall_false_append (by simp [Event.isMkdir])
          (forall_false_copies _ _ (fun s => rfl)))
        (forall_false_append (by simp [Event.isMkdir])
          (forall_false_testPhase a
            (fun e h => (isTestEvent_excludes e h).2.2.2.2)))
    · intro e he
      simp at he; rw [he]; simp [Event.isMkdir]
  · -- copies precede the config write
    refine eventsOrdered_of_split _ _ _
      ([Event.mkdir a.neuropod_path,
        Event.makedirs (a.neuropod_path ++ ["0", "ops"])] ++
        a.custom_ops.map (fun op => Event.copy op (a.neuropod_path ++ ["0", "ops"])))
      ([Event.writeNeuropodConfig (packagedConfig a),
        Event.makedirs (a.neuropod_path ++ ["0", "data"]),
        Event.torchJitSave a.module (a.neuropod_path ++ ["0", "data", "model.pt"])] ++
        testPhase a) (by rw [htr]; simp) ?_ ?_
    · exact forall_false_append (by simp [Event.isCopy])
        (forall_false_testPhase a (fun e h => (isTestEvent_excludes e h).1))
    · exact forall_false_append (by simp [Event.isConfigWrite])
        (forall_false_copies _ _ (fun s => rfl))
  · -- the config write precedes the serialization
    refine eventsOrdered_of_split _ _ _
      ([Event.mkdir a.neuropod_path,
        Event.makedirs (a.neuropod_path ++ ["0", "ops"])] ++
        a.custom_ops.map (fun op => Event.copy op (a.neuropod_path ++ ["0", "ops"])) ++
        [Event.writeNeuropodConfig (packagedConfig a),
         Event.makedirs (a.neuropod_path ++ ["0", "data"])])
      ([Event.torchJitSave a.module (a.neuropod_path ++ ["0", "data", "model.pt"])] ++
        testPhase a) (by rw [htr]; simp) ?_ ?_
    · exact forall_false_append (by simp [Event.isConfigWrite])
        (forall_false_testPhase a (fun e h => (isTestEvent_excludes e h).2.1))
    · exact forall_false_append
        (forall_false_append (by simp [Event.isSerialize])
          (forall_false_copies _ _ (fun s => rfl)))
        (by simp [Event.isSerialize])
  · -- all directory creations precede the serialization
    refine eventsOrdered_of_split _ _ _
      ([Event.mkdir a.neuropod_path,
        Event.makedirs (a.neuropod_path ++ ["0", "ops"])] ++
        a.custom_ops.map (fun op => Event.copy op (a.neuropod_path ++ ["0", "ops"])) ++
        [Event.writeNeuropodConfig (packagedConfig a),
         Event.makedirs (a.neuropod_path ++ ["0", "data"])])
      ([Event.torchJitSave a.module (a.neuropod_path ++ ["0", "data", "model.pt"])] ++
        testPhase a) (by rw [htr]; simp) ?_ ?_
    · exact forall_false_append (by simp [Event.isDirCreation])
        (forall_false_testPhase a (fun e h => (isTestEvent_excludes e h).2.2.2.1))
    · exact forall_false_append
        (forall_false_append (by simp [Event.isSerialize])
          (forall_false_copies _ _ (fun s => rfl)))
        (by simp [Event.isSerialize])
  · -- the serialization precedes the test phase
    refine eventsOrdered_of_split _ _ _
      ([Event.mkdir a.neuropod_path,
        Event.makedirs (a.neuropod_path ++ ["0", "ops"])] ++
        a.custom_ops.map (fun op => Event.copy op (a.neuropod_path ++ ["0", "ops"])) ++
        [Event.writeNeuropodConfig (packagedConfig a),
         Event.makedirs (a.neuropod_path ++ ["0", "data"]),
         Event.torchJitSave a.module (a.neuropod_path ++ ["0", "data", "model.pt"])])
      (testPhase a) (by rw [htr]) ?_ ?_
    · exact forall_false_testPhase a (fun e h => (isTestEvent_excludes e h).2.2.1)
    · exact forall_false_append
        (forall_false_append (by simp [Event.isTestEvent])
          (forall_false_copies _ _ (fun s => rfl)))
        (by simp [Event.isTestEvent])

/-- Witness for the amended C1 theorem at the concrete example call. -/
theorem create_torchscript_neuropod_step_order_witness :
    (create_torchscript_neuropod exFsFree exArgs).1 =
      [Event.mkdir exArgs.neuropod_path,
       Event.makedirs (exArgs.neuropod_path ++ ["0", "ops"])] ++
        exArgs.custom_ops.map
          (fun op => Event.copy op (exArgs.neuropod_path ++ ["0", "ops"])) ++
        [Event.writeNeuropodConfig (packagedConfig exArgs),
         Event.makedirs (exArgs.neuropod_path ++ ["0", "data"]),
         Event.torchJitSave exArgs.module
           (exArgs.neuropod_path ++ ["0", "data", "model.pt"])] ++
        testPhase exArgs ∧
    ActualStepOrder (create_torchscript_neuropod exFsFree exArgs).1 :=
  create_torchscript_neuropod_step_order exFsFree exArgs (by decide)

/-- C2: when `os.mkdir neuropod_path` fails because the path already
exists, the function raises `ValueError` (the underlying `OSError` is
swallowed by the `except` clause and never propagates) and performs no
filesystem operation or delegated call at all: no ops directory, no
copy, no config write, no serialization, no test. -/
theorem create_torchscript_neuropod_path_exists (fs : Path → Bool) (a : Args)
    (h : fs a.neuropod_path = true) :
    create_torchscript_neuropod fs a =
      ([], some (PyError.valueError
        ("The specified neuropod path (" ++ String.intercalate "/" a.neuropod_path ++
          ") already exists! Aborting..."))) := by
  simp [create_torchscript_neuropod, h]

/-- Witness for C2 at the concrete example call on an occupied path. -/
theorem create_torchscript_neuropod_path_exists_witness :
    create_torchscript_neuropod exFsTaken exArgs =
      ([], some (PyError.valueError
        ("The specified neuropod path (" ++ String.intercalate "/" exArgs.neuropod_path ++
          ") already exists! Aborting..."))) :=
  create_torchscript_neuropod_path_exists exFsTaken exArgs rfl

/-- C3: on a successful call, `load_and_test_neuropod` is invoked
exactly once when `test_input_data` is supplied and not at all when it
is `None`. -/
theorem create_torchscript_neuropod_smoke_test_iff (fs : Path → Bool) (a : Args)
    (h : (create_torchscript_neuropod fs a).2 = none) :
    (create_torchscript_neuropod fs a).1.countP Event.isLoadAndTest =
      (if a.test_input_data.isSome then 1 else 0) := by
  rcases hfs : fs a.neuropod_path with _ | _
  case true => simp [create_torchscript_neuropod, hfs] at h
  have hcopies :
      (a.custom_ops.map
        (fun op => Event.copy op (a.neuropod_path ++ ["0", "ops"]))).countP
        Event.isLoadAndTest = 0 := by
    rw [List.countP_eq_zero]
    intro e he
    rcases mem_copyEvents _ _ _ he with ⟨s, rfl⟩
    simp [Event.isLoadAndTest]
  rcases hd : a.test_input_data with _ | t <;>
    rcases hp : a.persist_test_data with _ | _ <;>
    simp [create_torchscript_neuropod, hfs, testPhase, hd, hp,
      List.countP_append, List.countP_cons, hcopies, Event.isLoadAndTest]

/-- Witness for C3 at the concrete example call. -/
theorem create_torchscript_neuropod_smoke_test_iff_witness :
    (create_torchscript_neuropod exFsFree exArgs).1.countP Event.isLoadAndTest =
      (if exArgs.test_input_data.isSome then 1 else 0) :=
  create_torchscript_neuropod_smoke_test_iff exFsFree exArgs (by decide)

/-- C4: on a successful call the model is serialized exactly once, by
`torch.jit.save`, to `model.pt` inside the data directory
`neuropod_path/0/data`. -/
theorem create_torchscript_neuropod_serializes_once (fs : Path → Bool) (a : Args)
    (h : (create_torchscript_neuropod fs a).2 = none) :
    (create_torchscript_neuropod fs a).1.filter Event.isSerialize =
      [Event.torchJitSave a.module (a.neuropod_path ++ ["0", "data", "model.pt"])] := by
  rcases hfs : fs a.neuropod_path with _ | _
  case true => simp [create_torchscript_neuropod, hfs] at h
  have hcopies :
      (a.custom_ops.map
        (fun op => Event.copy op (a.neuropod_path ++ ["0", "ops"]))).filter
        Event.isSerialize = [] := by
    rw [List.filter_eq_nil_iff]
    intro e he
    rcases mem_copyEvents _ _ _ he with ⟨s, rfl⟩
    simp [Event.isSerialize]
  have htest : (testPhase a).filter Event.isSerialize = [] := by
    rw [List.filter_eq_nil_iff]
    intro e he
    have hx := (isTestEvent_excludes e (testPhase_events_are_test a e he)).2.2.1
    simp [hx]
  simp [create_torchscript_neuropod, hfs, List.filter_append, hcopies, htest,
    Event.isSerialize]

/-- Witness for C4 at the concrete example call. -/
theorem create_torchscript_neuropod_serializes_once_witness :
    (create_torchscript_neuropod exFsFree exArgs).1.filter Event.isSerialize =
      [Event.torchJitSave exArgs.module
        (exArgs.neuropod_path ++ ["0", "data", "model.pt"])] :=
  create_torchscript_neuropod_serializes_once exFsFree exArgs (by decide)

/-- C5: on a successful call exactly one config is written, via
`config_utils.write_neuropod_config`, and it receives the caller's
`model_name`, `input_spec`, `output_spec`, `input_tensor_device` and
`default_input_tensor_device` unchanged together with `platform` fixed
to the string `torchscript`. -/
theorem create_torchscript_neuropod_config_once (fs : Path → Bool) (a : Args)
    (h : (create_torchscript_neuropod fs a).2 = none) :
    (create_torchscript_neuropod fs a).1.filter Event.isConfigWrite =
      [Event.writeNeuropodConfig
        { neuropod_path := a.neuropod_path
          model_name := a.model_name
          platform := "torchscript"
          input_spec := a.input_spec
          output_spec := a.output_spec
          custom_ops := a.custom_ops.map basename
          input_tensor_device := a.input_tensor_device
          default_input_tensor_device := a.default_input_tensor_device }] := by
  rcases hfs : fs a.neuropod_path with _ | _
  case true => simp [create_torchscript_neuropod, hfs] at h
  have hcopies :
      (a.custom_ops.map
        (fun op => Event.copy op (a.neuropod_path ++ ["0", "ops"]))).filter
        Event.isConfigWrite = [] := by
    rw [List.filter_eq_nil_iff]
    intro e he
    rcases mem_copyEvents _ _ _ he with ⟨s, rfl⟩
    simp [Event.isConfigWrite]
  have htest : (testPhase a).filter Event.isConfigWrite = [] := by
    rw [List.filter_eq_nil_iff]
    intro e he
    have hx := (isTestEvent_excludes e (testPhase_events_are_test a e he)).2.1
    simp [hx]
  simp [create_torchscript_neuropod, hfs, List.filter_append, hcopies, htest,
    Event.isConfigWrite, packagedConfig]

/-- Witness for C5 at the concrete example call. -/
theorem create_torchscript_neuropod_config_once_witness :
    (create_torchscript_neuropod exFsFree exArgs).1.filter Event.isConfigWrite =
      [Event.writeNeuropodConfig
        { neuropod_path := exArgs.neuropod_path
          model_name := exArgs.model_name
          platform := "torchscript"
          input_spec := exArgs.input_spec
          output_spec := exArgs.output_spec
          custom_ops := exArgs.custom_ops.map basename
          input_tensor_device := exArgs.input_tensor_device
          default_input_tensor_device := exArgs.default_input_tensor_device }] :=
  create_torchscript_neuropod_config_once exFsFree exArgs (by decide)

/-- C6: on a successful call the copies performed are exactly one
`shutil.copy` per entry of `custom_ops`, in order, into the ops
directory `neuropod_path/0/ops`, and that directory is created (by
`os.makedirs`) even when `custom_ops` is empty. -/
theorem create_torchscript_neuropod_copies_ops (fs : Path → Bool) (a : Args)
    (h : (create_torchscript_neuropod fs a).2 = none) :
    (create_torchscript_neuropod fs a).1.filter Event.isCopy =
        a.custom_ops.map (fun op => Event.copy op (a.neuropod_path ++ ["0", "ops"])) ∧
      Event.makedirs (a.neuropod_path ++ ["0", "ops"]) ∈
        (create_torchscript_neuropod fs a).1 := by
  rcases hfs : fs a.neuropod_path with _ | _
  case true => simp [create_torchscript_neuropod, hfs] at h
  have hcopies :
      (a.custom_ops.map
        (fun op => Event.copy op (a.neuropod_path ++ ["0", "ops"]))).filter
        Event.isCopy =
        a.custom_ops.map
          (fun op => Event.copy op (a.neuropod_path ++ ["0", "ops"])) := by
    rw [List.filter_eq_self]
    intro e he
    rcases mem_copyEvents _ _ _ he with ⟨s, rfl⟩
    rfl
  have htest : (testPhase a).filter Event.isCopy = [] := by
    rw [List.filter_eq_nil_iff]
    intro e he
    have hx := (isTestEvent_excludes e (testPhase_events_are_test a e he)).1
    simp [hx]
  constructor
  · simp [create_torchscript_neuropod, hfs, List.filter_append, hcopies, htest,
      Event.isCopy]
  · simp [create_torchscript_neuropod, hfs]

/-- Witness for C6 at a call with the default (empty) `custom_ops`. -/
theorem create_torchscript_neuropod_copies_ops_witness :
    (create_torchscript_neuropod exFsFree exArgsDefaults).1.filter Event.isCopy =
        exArgsDefaults.custom_ops.map
          (fun op => Event.copy op (exArgsDefaults.neuropod_path ++ ["0", "ops"])) ∧
      Event.makedirs (exArgsDefaults.neuropod_path ++ ["0", "ops"]) ∈
        (create_torchscript_neuropod exFsFree exArgsDefaults).1 :=
  create_torchscript_neuropod_copies_ops exFsFree exArgsDefaults (by decide)

/-- C7: when `test_input_data` is `None`, the values of
`test_expected_out` and `persist_test_data` have no effect on the call
at all, no test data is saved and no inference is run, and supplying
`test_expected_out` without `test_input_data` raises no error: on a
fresh path the call still succeeds. -/
theorem create_torchscript_neuropod_ignores_test_params (fs : Path → Bool)
    (a : Args) (h : a.test_input_data = none) (e : Option Nat) (p : Bool) :
    create_torchscript_neuropod fs
        { a with test_expected_out := e, persist_test_data := p } =
      create_torchscript_neuropod fs a ∧
    (create_torchscript_neuropod fs a).1.countP Event.isTestEvent = 0 ∧
    (fs a.neuropod_path = false → (create_torchscript_neuropod fs a).2 = none) := by
  refine ⟨?_, ?_, ?_⟩
  · simp [create_torchscript_neuropod, testPhase, packagedConfig, h]
  · rcases hfs : fs a.neuropod_path with _ | _
    · have hcopies :
          (a.custom_ops.map
            (fun op => Event.copy op (a.neuropod_path ++ ["0", "ops"]))).countP
            Event.isTestEvent = 0 := by
        rw [List.countP_eq_zero]
        intro x hx
        rcases mem_copyEvents _ _ _ hx with ⟨s, rfl⟩
        simp [Event.isTestEvent]
      simp [create_torchscript_neuropod, hfs, testPhase, h, List.countP_append,
        List.countP_cons, hcopies, Event.isTestEvent]
    · simp [create_torchscript_neuropod, hfs]
  · intro hf
    simp [create_torchscript_neuropod, hf]

/-- Witness for C7: defaults (no test input) with a supplied expected
output and `persist_test_data = False`. -/
theorem create_torchscript_neuropod_ignores_test_params_witness :
    create_torchscript_neuropod exFsFree
        { exArgsDefaults with test_expected_out := some 5, persist_test_data := false } =
      create_torchscript_neuropod exFsFree exArgsDefaults ∧
    (create_torchscript_neuropod exFsFree exArgsDefaults).1.countP
      Event.isTestEvent = 0 ∧
    (exFsFree exArgsDefaults.neuropod_path = false →
      (create_torchscript_neuropod exFsFree exArgsDefaults).2 = none) :=
  create_torchscript_neuropod_ignores_test_params exFsFree exArgsDefaults rfl
    (some 5) false

/-- C8: every config record handed to `write_neuropod_config` during a
call has its `custom_ops` field equal to the basenames of the caller's
`custom_ops` paths, in the same order. -/
theorem create_torchscript_neuropod_config_basenames (fs : Path → Bool)
    (a : Args) (cfg : NeuropodConfig)
    (h : Event.writeNeuropodConfig cfg ∈ (create_torchscript_neuropod fs a).1) :
    cfg.custom_ops = a.custom_ops.map basename := by
  rcases hfs : fs a.neuropod_path with _ | _
  case true => simp [create_torchscript_neuropod, hfs] at h
  have hnt : Event.writeNeuropodConfig cfg ∉ testPhase a := by
    intro hmem
    have hx := testPhase_events_are_test a _ hmem
    simp [Event.isTestEvent] at hx
  simp [create_torchscript_neuropod, hfs, List.mem_append, List.mem_map, hnt] at h
  simp [h, packagedConfig]

/-- Witness for C8 at the concrete example call. -/
theorem create_torchscript_neuropod_config_basenames_witness :
    (packagedConfig exArgs).custom_ops = exArgs.custom_ops.map basename :=
  create_torchscript_neuropod_config_basenames exFsFree exArgs
    (packagedConfig exArgs) (by decide)

theorem testPhase_touchedPaths (a : Args) :
    ∀ e ∈ testPhase a, Event.touchedPaths e = [a.neuropod_path] := by
  intro e he
  unfold testPhase at he
  rcases hd : a.test_input_data with _ | t <;> rw [hd] at he
  · simp at he
  · rcases List.mem_append.mp he with h1 | h1
    · rcases hp : a.persist_test_data <;> rw [hp] at h1 <;> simp at h1
      rw [h1]; rfl
    · simp at h1
      rw [h1]; rfl

/-- C9: frame property: every filesystem location the call creates or
writes — directly, or through a delegated call, which is credited with
the package path it is handed — lies under `neuropod_path`; moreover
each such location is the package root itself (for paths handed to
delegates) or lies beneath the versioned subdirectory
`neuropod_path/0`. -/
theorem create_torchscript_neuropod_frame (fs : Path → Bool) (a : Args) (q : Path)
    (h : q ∈ ((create_torchscript_neuropod fs a).1.flatMap Event.touchedPaths)) :
    a.neuropod_path <+: q ∧
      (q = a.neuropod_path ∨ (a.neuropod_path ++ ["0"]) <+: q) := by
  rcases hfs : fs a.neuropod_path with _ | _
  case true => simp [create_torchscript_neuropod, hfs] at h
  rw [List.mem_flatMap] at h
  rcases h with ⟨e, he, hq⟩
  simp only [create_torchscript_neuropod, hfs, Bool.false_eq_true, if_false,
    List.mem_append, List.mem_cons, List.mem_map, List.not_mem_nil, or_false] at he
  rcases he with (((rfl | rfl) | ⟨op, _, rfl⟩) | (rfl | rfl | rfl)) | he
  · simp only [Event.touchedPaths, List.mem_cons, List.not_mem_nil, or_false] at hq
    subst hq
    exact ⟨⟨[], by simp⟩, Or.inl rfl⟩
  · simp only [Event.touchedPaths, List.mem_cons, List.not_mem_nil, or_false] at hq
    subst hq
    exact ⟨⟨["0", "ops"], rfl⟩, Or.inr ⟨["ops"], by simp⟩⟩
  · simp only [Event.touchedPaths, List.mem_cons, List.not_mem_nil, or_false] at hq
    subst hq
    exact ⟨⟨["0", "ops", basename op], by simp⟩, Or.inr ⟨["ops", basename op], by simp⟩⟩
  · simp only [Event.touchedPaths, packagedConfig, List.mem_cons, List.not_mem_nil,
      or_false] at hq
    subst hq
    exact ⟨⟨[], by simp⟩, Or.inl rfl⟩
  · simp only [Event.touchedPaths, List.mem_cons, List.not_mem_nil, or_false] at hq
    subst hq
    exact ⟨⟨["0", "data"], rfl⟩, Or.inr ⟨["data"], by simp⟩⟩
  · simp only [Event.touchedPaths, List.mem_cons, List.not_mem_nil, or_false] at hq
    subst hq
    exact ⟨⟨["0", "data", "model.pt"], rfl⟩, Or.inr ⟨["data", "model.pt"], by simp⟩⟩
  · rw [testPhase_touchedPaths a e he] at hq
    simp only [List.mem_cons, List.not_mem_nil, or_false] at hq
    subst hq
    exact ⟨⟨[], by simp⟩, Or.inl rfl⟩

/-- Witness for C9: the serialized model file of the example call lies
under the package path, beneath its `0` subdirectory. -/
theorem create_torchscript_neuropod_frame_witness :
    exArgs.neuropod_path <+: (exArgs.neuropod_path ++ ["0", "data", "model.pt"]) ∧
      (exArgs.neuropod_path ++ ["0", "data", "model.pt"] = exArgs.neuropod_path ∨
        (exArgs.neuropod_path ++ ["0"]) <+:
          (exArgs.neuropod_path ++ ["0", "data", "model.pt"])) :=
  create_torchscript_neuropod_frame exFsFree exArgs
    (exArgs.neuropod_path ++ ["0", "data", "model.pt"]) (by decide)



/-- C10: the embedded function is deterministic and sequential: two
runs with the same arguments and the same filesystem state produce the
same totally ordered trace of operations and the same outcome.  (The
embedding is a pure function of its inputs, reflecting that the Python
function is straight-line code with no concurrency or scheduling.) -/
theorem create_torchscript_neuropod_deterministic (fs fs2 : Path → Bool)
    (a a2 : Args) (hfs : fs = fs2) (ha : a = a2) :
    create_torchscript_neuropod fs a = create_torchscript_neuropod fs2 a2 := by
  rw [hfs, ha]

/-- Witness for C10 at the concrete example call. -/
theorem create_torchscript_neuropod_deterministic_witness :
    create_torchscript_neuropod exFsFree exArgs =
      create_torchscript_neuropod exFsFree exArgs :=
  create_torchscript_neuropod_deterministic exFsFree exFsFree exArgs exArgs
    rfl rfl

end Neuropod
